import Mathlib

/-!
Verification of the device/swapchain lifecycle core of the `hellovk` Android
Vulkan sample (`app/src/main/cpp/hellovk.h` and `app/src/main/cpp/vk_main.cpp`).

The C++ code is shallowly embedded: `uint32_t` values become `Nat` (with an
explicit `% 2^32` where overflow matters), `VkResult` becomes `Int` (0 is
`VK_SUCCESS`), `std::optional<uint32_t>` becomes `Option Nat`, Vulkan bit
flags become `Nat` bit masks combined with `&&&`, and side-effecting Vulkan
calls are either modelled by the value they produce or recorded in an explicit
event trace on a state record.
-/

namespace HelloVK

/-! ## Vulkan constants used by the embedded code -/

/-- VK_SURFACE_TRANSFORM_ROTATE_90_BIT_KHR (vulkan_core.h). -/
def VK_SURFACE_TRANSFORM_ROTATE_90_BIT_KHR : Nat := 2

/-- VK_SURFACE_TRANSFORM_ROTATE_270_BIT_KHR (vulkan_core.h). -/
def VK_SURFACE_TRANSFORM_ROTATE_270_BIT_KHR : Nat := 8

/-- VK_QUEUE_GRAPHICS_BIT (vulkan_core.h). -/
def VK_QUEUE_GRAPHICS_BIT : Nat := 1

/-- VK_FENCE_CREATE_SIGNALED_BIT (vulkan_core.h). -/
def VK_FENCE_CREATE_SIGNALED_BIT : Nat := 1

/-- MAX_FRAMES_IN_FLIGHT (hellovk.h line 54). -/
def MAX_FRAMES_IN_FLIGHT : Nat := 2

/-- Modulus of a `uint32_t`. -/
def UINT32_MOD : Nat := 4294967296

/-! ## Surface capabilities and `establishDisplaySizeIdentity` (hellovk.h 975-990) -/

/-- VkExtent2D: a width/height pair of `uint32_t`. -/
structure VkExtent2D where
  width : Nat
  height : Nat
  deriving DecidableEq, Repr

/-- The fields of VkSurfaceCapabilitiesKHR that the embedded code reads:
`currentExtent` and `currentTransform` (a VkSurfaceTransformFlagBitsKHR bit). -/
structure VkSurfaceCapabilitiesKHR where
  currentExtent : VkExtent2D
  currentTransform : Nat
  minImageCount : Nat
  maxImageCount : Nat
  deriving DecidableEq, Repr

/-- HelloVK::establishDisplaySizeIdentity (hellovk.h 975-990): reads the
surface's current extent; if the current transform has the ROTATE_90 or
ROTATE_270 bit set, swaps width and height; stores the result in
`displaySizeIdentity`. -/
def establishDisplaySizeIdentity (capabilities : VkSurfaceCapabilitiesKHR) : VkExtent2D :=
  let width := capabilities.currentExtent.width
  let height := capabilities.currentExtent.height
  if capabilities.currentTransform &&& VK_SURFACE_TRANSFORM_ROTATE_90_BIT_KHR ≠ 0 ∨
     capabilities.currentTransform &&& VK_SURFACE_TRANSFORM_ROTATE_270_BIT_KHR ≠ 0 then
    { width := height, height := width }
  else
    capabilities.currentExtent

/-! ## Swapchain image count (hellovk.h 1018-1022) -/

/-- The image-count computation at the top of HelloVK::createSwapChain
(hellovk.h 1018-1022):
`uint32_t imageCount = capabilities.minImageCount + 1;` followed by a clamp
down to `maxImageCount` when that maximum is non-zero and exceeded. -/
def createSwapChainImageCount (capabilities : VkSurfaceCapabilitiesKHR) : Nat :=
  let imageCount := (capabilities.minImageCount + 1) % UINT32_MOD
  if capabilities.maxImageCount > 0 ∧ imageCount > capabilities.maxImageCount then
    capabilities.maxImageCount
  else
    imageCount

/-- Convenience entry point taking the two counts directly. -/
def swapImageCount (minImageCount maxImageCount : Nat) : Nat :=
  createSwapChainImageCount { currentExtent := ⟨0, 0⟩, currentTransform := 0,
                              minImageCount := minImageCount, maxImageCount := maxImageCount }

/-! ## Theorems for C1 and C2 -/

/-- C1: for every surface-capabilities value whose currentTransform includes
the 90-degree or 270-degree rotation bit, `establishDisplaySizeIdentity`
produces an extent whose width and height are swapped relative to the raw
`currentExtent`; for every other transform it produces `currentExtent`
unchanged; in particular for currentExtent = {1080, 2400} with
currentTransform = ROTATE_90 it produces {2400, 1080}. -/
theorem establishDisplaySizeIdentity_spec :
    ∀ capabilities : VkSurfaceCapabilitiesKHR,
      ((capabilities.currentTransform &&& VK_SURFACE_TRANSFORM_ROTATE_90_BIT_KHR ≠ 0 ∨
        capabilities.currentTransform &&& VK_SURFACE_TRANSFORM_ROTATE_270_BIT_KHR ≠ 0) →
        (establishDisplaySizeIdentity capabilities).width = capabilities.currentExtent.height ∧
        (establishDisplaySizeIdentity capabilities).height = capabilities.currentExtent.width) ∧
      ((capabilities.currentTransform &&& VK_SURFACE_TRANSFORM_ROTATE_90_BIT_KHR = 0 ∧
        capabilities.currentTransform &&& VK_SURFACE_TRANSFORM_ROTATE_270_BIT_KHR = 0) →
        establishDisplaySizeIdentity capabilities = capabilities.currentExtent) ∧
      establishDisplaySizeIdentity
        { currentExtent := ⟨1080, 2400⟩,
          currentTransform := VK_SURFACE_TRANSFORM_ROTATE_90_BIT_KHR,
          minImageCount := 0, maxImageCount := 0 } = ⟨2400, 1080⟩ := by
  intro capabilities
  refine ⟨?_, ?_, by decide⟩
  · intro h
    unfold establishDisplaySizeIdentity
    rw [if_pos h]
    exact ⟨rfl, rfl⟩
  · intro h
    unfold establishDisplaySizeIdentity
    rw [if_neg]
    intro hcon
    rcases hcon with hc | hc
    · exact hc h.1
    · exact hc h.2

/-- Witness for C1: the theorem applied at the concrete rotated capabilities. -/
theorem establishDisplaySizeIdentity_spec_witness :
    (establishDisplaySizeIdentity
      { currentExtent := ⟨1080, 2400⟩, currentTransform := 2,
        minImageCount := 0, maxImageCount := 0 }).width = 2400 ∧
    (establishDisplaySizeIdentity
      { currentExtent := ⟨1080, 2400⟩, currentTransform := 2,
        minImageCount := 0, maxImageCount := 0 }).height = 1080 :=
  (establishDisplaySizeIdentity_spec
    { currentExtent := ⟨1080, 2400⟩, currentTransform := 2,
      minImageCount := 0, maxImageCount := 0 }).1 (Or.inl (by decide))

/-- C2 counterexample: at minImageCount = 2, maxImageCount = 0 the computed
count is 3, which violates the claimed bound
`count ≤ max (minImageCount, maxImageCount) = 2`. -/
theorem swapImageCount_bound_counterexample :
    swapImageCount 2 0 = 3 ∧ ¬ swapImageCount 2 0 ≤ max 2 0 := by
  decide

/-- C2 (amended): for capability samples with no `uint32_t` overflow and a
valid maximum (`maxImageCount = 0` or `minImageCount ≤ maxImageCount`), the
computed count equals `minImageCount + 1` unless `maxImageCount` is non-zero
and smaller, in which case it equals `maxImageCount`; hence
`minImageCount ≤ count ≤ max (minImageCount + 1) maxImageCount`, and the count
equals `maxImageCount` whenever `minImageCount + 1 > maxImageCount > 0`; the
two scenarios (min 2 / max 3 and min 2 / max 0) both give 3. -/
theorem swapImageCount_spec :
    ∀ minC maxC : Nat, minC + 1 < UINT32_MOD → (maxC = 0 ∨ minC ≤ maxC) →
      (minC ≤ swapImageCount minC maxC ∧
       swapImageCount minC maxC ≤ max (minC + 1) maxC) ∧
      (0 < maxC → maxC < minC + 1 → swapImageCount minC maxC = maxC) ∧
      ((maxC = 0 ∨ minC + 1 ≤ maxC) → swapImageCount minC maxC = minC + 1) ∧
      swapImageCount 2 3 = 3 ∧ swapImageCount 2 0 = 3 := by
  intro minC maxC hov hvalid
  have hmod : (minC + 1) % UINT32_MOD = minC + 1 := Nat.mod_eq_of_lt hov
  simp only [swapImageCount, createSwapChainImageCount, hmod]
  refine ⟨?_, ?_, ?_, by decide, by decide⟩
  · split
    case isTrue h => omega
    case isFalse h => omega
  · intro hpos hlt
    rw [if_pos ⟨hpos, hlt⟩]
  · intro hcase
    rw [if_neg]
    omega

/-- Witness for C2: the amended theorem applied at minImageCount = 2,
maxImageCount = 3, a valid non-overflowing sample. -/
theorem swapImageCount_spec_witness :
    2 ≤ swapImageCount 2 3 ∧ swapImageCount 2 3 ≤ max 3 3 :=
  (swapImageCount_spec 2 3 (by decide) (Or.inr (by decide))).1

/-! ## Queue family discovery (hellovk.h 60-66 and 804-833) -/

/-- QueueFamilyIndices (hellovk.h 60-66): two optional family indices. -/
structure QueueFamilyIndices where
  graphicsFamily : Option Nat
  presentFamily : Option Nat
  deriving DecidableEq, Repr

/-- QueueFamilyIndices::isComplete (hellovk.h 63-65). -/
def QueueFamilyIndices.isComplete (indices : QueueFamilyIndices) : Bool :=
  indices.graphicsFamily.isSome && indices.presentFamily.isSome

/-- One entry of the queue-family loop of HelloVK::findQueueFamilies: the
family's VkQueueFamilyProperties::queueFlags paired with the surface's
presentation-support answer from vkGetPhysicalDeviceSurfaceSupportKHR for
that family index. -/
structure QFam where
  queueFlags : Nat
  presentSupport : Bool
  deriving DecidableEq, Repr

/-- The graphics test of the loop body: `queueFamily.queueFlags & VK_QUEUE_GRAPHICS_BIT`. -/
def hasGraphicsBit (q : QFam) : Bool := q.queueFlags &&& VK_QUEUE_GRAPHICS_BIT != 0

/-- The loop of HelloVK::findQueueFamilies (hellovk.h 815-830): walks the
queue families with a running index, records the last family with the
graphics bit and the last family with presentation support, and breaks early
as soon as both indices are populated. -/
def findQueueFamiliesGo : Option Nat → Option Nat → Nat → List QFam → QueueFamilyIndices
  | g, p, _, [] => ⟨g, p⟩
  | g, p, i, qf :: rest =>
    let g1 := if hasGraphicsBit qf then some i else g
    let p1 := if qf.presentSupport then some i else p
    if (QueueFamilyIndices.mk g1 p1).isComplete then ⟨g1, p1⟩
    else findQueueFamiliesGo g1 p1 (i + 1) rest

/-- HelloVK::findQueueFamilies (hellovk.h 804-833). -/
def findQueueFamilies (queueFamilies : List QFam) : QueueFamilyIndices :=
  findQueueFamiliesGo none none 0 queueFamilies

/-- Completeness of the early-breaking loop, with generalized accumulators:
the result is complete exactly when each accumulator is already populated or
the remaining families supply the missing capability. -/
theorem findQueueFamiliesGo_isComplete (queueFamilies : List QFam) :
    ∀ (g p : Option Nat) (i : Nat),
      (findQueueFamiliesGo g p i queueFamilies).isComplete
        = ((g.isSome || queueFamilies.any hasGraphicsBit)
            && (p.isSome || queueFamilies.any (fun q => q.presentSupport))) := by
  induction queueFamilies with
  | nil =>
    intro g p i
    simp [findQueueFamiliesGo, QueueFamilyIndices.isComplete]
  | cons qf rest ih =>
    intro g p i
    by_cases h1 : hasGraphicsBit qf <;> by_cases h2 : qf.presentSupport <;>
      simp only [findQueueFamiliesGo, h1, h2, if_true, if_false, ite_true, ite_false,
        List.any_cons, QueueFamilyIndices.isComplete, Option.isSome_some, Bool.true_and,
        Bool.and_true, Bool.true_or, Bool.or_true] <;>
      cases g <;> cases p <;>
      simp_all [findQueueFamiliesGo, QueueFamilyIndices.isComplete, ih]

/-- Helper shared by the suitability proofs: completeness of
findQueueFamilies from the loop invariant. -/
theorem findQueueFamilies_isComplete_eq (queueFamilies : List QFam) :
    (findQueueFamilies queueFamilies).isComplete
      = (queueFamilies.any hasGraphicsBit
          && queueFamilies.any (fun q => q.presentSupport)) := by
  simp [findQueueFamilies, findQueueFamiliesGo_isComplete]

/-- C10: the QueueFamilyIndices returned by findQueueFamilies is complete
exactly when the device has at least one queue family with the graphics bit
and at least one queue family with presentation support; the early break
never makes such a device incomplete. -/
theorem findQueueFamilies_complete_iff :
    ∀ queueFamilies : List QFam,
      (findQueueFamilies queueFamilies).isComplete
        = (queueFamilies.any hasGraphicsBit
            && queueFamilies.any (fun q => q.presentSupport)) := by
  intro queueFamilies
  exact findQueueFamilies_isComplete_eq queueFamilies

/-! ## Device suitability and selection (hellovk.h 833-911) -/

/-- VkSurfaceFormatKHR: a format/colorSpace pair. -/
structure VkSurfaceFormatKHR where
  format : Nat
  colorSpace : Nat
  deriving DecidableEq, Repr

/-- Everything the suitability checks query about one physical device:
queue family properties together with per-family presentation support,
the device's available extension names, and the surface's format and
present-mode lists for this device. -/
structure PhysDevice where
  queueFamilies : List QFam
  availableExtensions : List String
  formats : List VkSurfaceFormatKHR
  presentModes : List Nat
  deriving DecidableEq, Repr

/-- The required device extension list (hellovk.h 241-242). -/
def deviceExtensions : List String := ["VK_KHR_swapchain"]

/-- HelloVK::checkDeviceExtensionSupport (hellovk.h 833-850): the set of
required extensions minus the available ones is empty, i.e. every required
extension appears among the available ones. -/
def checkDeviceExtensionSupport (availableExtensions : List String) : Bool :=
  deviceExtensions.all (fun e => availableExtensions.contains e)

/-- HelloVK::isDeviceSuitable (hellovk.h 882-892): queue family indices
complete, required extensions supported, and (queried only when extensions
are supported) non-empty surface format and present-mode lists. -/
def isDeviceSuitable (d : PhysDevice) : Bool :=
  let indices := findQueueFamilies d.queueFamilies
  let extensionsSupported := checkDeviceExtensionSupport d.availableExtensions
  let swapChainAdequate :=
    if extensionsSupported then !d.formats.isEmpty && !d.presentModes.isEmpty else false
  indices.isComplete && extensionsSupported && swapChainAdequate

/-- HelloVK::pickPhysicalDevice (hellovk.h 894-911): `physicalDevice` starts
as VK_NULL_HANDLE and the loop stores the first suitable device and breaks;
`none` models the asserted fatal paths (no devices enumerated, or no
suitable candidate, so `physicalDevice` stays VK_NULL_HANDLE). -/
def pickPhysicalDevice (devices : List PhysDevice) : Option PhysDevice :=
  devices.find? isDeviceSuitable

/-- C4: physical-device selection is a deterministic first-match policy:
whenever every candidate before `d` is unsuitable and `d` is suitable, `d` is
selected regardless of later candidates; selection fails exactly when the
enumeration has no suitable candidate (in particular when it is empty); and
suitability is precisely the conjunction of the four predicates: a
graphics-capable family, a present-capable family, all required extensions
supported, and non-empty format and present-mode lists. -/
theorem pickPhysicalDevice_first_match :
    (∀ (pre post : List PhysDevice) (d : PhysDevice),
       (∀ x ∈ pre, isDeviceSuitable x = false) → isDeviceSuitable d = true →
       pickPhysicalDevice (pre ++ d :: post) = some d) ∧
    (∀ devices : List PhysDevice,
       pickPhysicalDevice devices = none ↔ ∀ d ∈ devices, isDeviceSuitable d = false) ∧
    (∀ d : PhysDevice,
       isDeviceSuitable d = true ↔
         (d.queueFamilies.any hasGraphicsBit = true ∧
          d.queueFamilies.any (fun q => q.presentSupport) = true ∧
          checkDeviceExtensionSupport d.availableExtensions = true ∧
          d.formats ≠ [] ∧ d.presentModes ≠ [])) := by
  refine ⟨?_, ?_, ?_⟩
  · intro pre post d hpre hd
    induction pre with
    | nil => simpa [pickPhysicalDevice] using List.find?_cons_of_pos _ hd
    | cons x xs ih =>
      have hx : isDeviceSuitable x = false := hpre x (by simp)
      have hxs : ∀ y ∈ xs, isDeviceSuitable y = false := fun y hy => hpre y (by simp [hy])
      simpa [pickPhysicalDevice, List.find?_cons, hx] using ih hxs
  · intro devices
    rw [pickPhysicalDevice, List.find?_eq_none]
    constructor
    · intro h d hd
      have := h d hd
      simpa using this
    · intro h d hd
      simp [h d hd]
  · intro d
    rw [isDeviceSuitable]
    simp only [findQueueFamilies_isComplete_eq]
    by_cases hext : checkDeviceExtensionSupport d.availableExtensions <;>
      simp [hext, Bool.and_eq_true, List.isEmpty_iff, and_assoc]

/-- Witness for C4: a two-candidate enumeration where the first candidate
lacks every capability and the second is fully capable; selection returns the
second (first suitable) one. -/
theorem pickPhysicalDevice_first_match_witness :
    pickPhysicalDevice
      [ { queueFamilies := [], availableExtensions := [], formats := [], presentModes := [] },
        { queueFamilies := [⟨1, true⟩], availableExtensions := ["VK_KHR_swapchain"],
          formats := [⟨50, 0⟩], presentModes := [2] } ]
      = some { queueFamilies := [⟨1, true⟩], availableExtensions := ["VK_KHR_swapchain"],
               formats := [⟨50, 0⟩], presentModes := [2] } :=
  pickPhysicalDevice_first_match.1
    [ { queueFamilies := [], availableExtensions := [], formats := [], presentModes := [] } ]
    []
    { queueFamilies := [⟨1, true⟩], availableExtensions := ["VK_KHR_swapchain"],
      formats := [⟨50, 0⟩], presentModes := [2] }
    (by intro x hx; simp at hx; subst hx; rfl)
    (by rfl)

/-! ## Synchronization objects (hellovk.h 1065-1085) -/

/-- A created binary semaphore (no further modelled state). -/
inductive VkSemaphore where
  | mk
  deriving DecidableEq, Repr

/-- VkSemaphoreCreateInfo carries nothing the model needs. -/
def vkCreateSemaphore : VkSemaphore := VkSemaphore.mk

/-- VkFenceCreateInfo: only the flags field is set by the code. -/
structure VkFenceCreateInfo where
  flags : Nat
  deriving DecidableEq, Repr

/-- A fence; its initial signaled state comes from the create flags. -/
structure VkFence where
  signaled : Bool
  deriving DecidableEq, Repr

/-- vkCreateFence: the fence starts signaled exactly when
VK_FENCE_CREATE_SIGNALED_BIT is set in the create info. -/
def vkCreateFence (info : VkFenceCreateInfo) : VkFence :=
  { signaled := info.flags &&& VK_FENCE_CREATE_SIGNALED_BIT != 0 }

/-- vkWaitForFences on a single fence blocks exactly when the fence is not
yet signaled; on a signaled fence it returns immediately. -/
def vkWaitForFenceBlocks (f : VkFence) : Bool := !f.signaled

/-- The three per-frame vectors created by HelloVK::createSyncObjects. -/
structure SyncObjects where
  imageAvailableSemaphores : List VkSemaphore
  renderFinishedSemaphores : List VkSemaphore
  inFlightFences : List VkFence
  deriving DecidableEq, Repr

/-- The fence create info of createSyncObjects (hellovk.h 1073-1075):
`fenceInfo.flags = VK_FENCE_CREATE_SIGNALED_BIT`. -/
def fenceInfo : VkFenceCreateInfo := { flags := VK_FENCE_CREATE_SIGNALED_BIT }

/-- HelloVK::createSyncObjects (hellovk.h 1065-1085): resizes the three
vectors to MAX_FRAMES_IN_FLIGHT and fills slot i with one image-available
semaphore, one render-finished semaphore and one fence created from
`fenceInfo`. -/
def createSyncObjects : SyncObjects :=
  { imageAvailableSemaphores := List.replicate MAX_FRAMES_IN_FLIGHT vkCreateSemaphore,
    renderFinishedSemaphores := List.replicate MAX_FRAMES_IN_FLIGHT vkCreateSemaphore,
    inFlightFences := List.replicate MAX_FRAMES_IN_FLIGHT (vkCreateFence fenceInfo) }

/-- C5: createSyncObjects creates exactly 2 frame-sync slots
(MAX_FRAMES_IN_FLIGHT = 2), each with one image-available semaphore, one
render-finished semaphore, and one fence whose signaled flag is set, so a
wait on any slot's fence before any submission does not block. -/
theorem createSyncObjects_spec :
    MAX_FRAMES_IN_FLIGHT = 2 ∧
    createSyncObjects.imageAvailableSemaphores.length = 2 ∧
    createSyncObjects.renderFinishedSemaphores.length = 2 ∧
    createSyncObjects.inFlightFences.length = 2 ∧
    createSyncObjects.inFlightFences.all
      (fun f => f.signaled && !vkWaitForFenceBlocks f) = true := by
  decide

/-! ## Swapchain sharing mode (hellovk.h 1036-1048) -/

/-- VkSharingMode. -/
inductive VkSharingMode where
  | exclusive
  | concurrent
  deriving DecidableEq, Repr

/-- The sharing-related fields of VkSwapchainCreateInfoKHR set at
hellovk.h 1036-1048; `pQueueFamilyIndices = []` models the nullptr case. -/
structure SwapchainSharingConfig where
  imageSharingMode : VkSharingMode
  queueFamilyIndexCount : Nat
  pQueueFamilyIndices : List Nat
  deriving DecidableEq, Repr

/-- The sharing-mode decision inside HelloVK::createSwapChain
(hellovk.h 1036-1048): both optionals are read with `value()` (none models
the thrown bad_optional_access on an incomplete discovery result), then the
two families are compared; distinct families give concurrent sharing across
the two-index array, equal families give exclusive sharing with a zero index
count and a null index pointer. -/
def createSwapChainSharing (indices : QueueFamilyIndices) : Option SwapchainSharingConfig :=
  match indices.graphicsFamily, indices.presentFamily with
  | some g, some p =>
    some (if g ≠ p
          then { imageSharingMode := .concurrent, queueFamilyIndexCount := 2,
                 pQueueFamilyIndices := [g, p] }
          else { imageSharingMode := .exclusive, queueFamilyIndexCount := 0,
                 pQueueFamilyIndices := [] })
  | _, _ => none

/-- C6: for every queue-family discovery result, distinct graphics and
present families give concurrent sharing with a queue family index count of
2, and equal families give exclusive sharing with an index count of 0; in
particular both families equal to 0 give the exclusive/0 configuration. -/
theorem createSwapChainSharing_spec :
    ∀ g p : Nat,
      (g ≠ p →
        createSwapChainSharing ⟨some g, some p⟩
          = some { imageSharingMode := .concurrent, queueFamilyIndexCount := 2,
                   pQueueFamilyIndices := [g, p] }) ∧
      (g = p →
        createSwapChainSharing ⟨some g, some p⟩
          = some { imageSharingMode := .exclusive, queueFamilyIndexCount := 0,
                   pQueueFamilyIndices := [] }) ∧
      createSwapChainSharing ⟨some 0, some 0⟩
        = some { imageSharingMode := .exclusive, queueFamilyIndexCount := 0,
                 pQueueFamilyIndices := [] } := by
  intro g p
  refine ⟨?_, ?_, by decide⟩
  · intro h
    simp [createSwapChainSharing, h]
  · intro h
    simp [createSwapChainSharing, h]

/-- Witness for C6: the theorem applied for the concurrent case at families
0 and 1, and for the exclusive case at families 0 and 0. -/
theorem createSwapChainSharing_spec_witness :
    createSwapChainSharing ⟨some 0, some 1⟩
      = some { imageSharingMode := .concurrent, queueFamilyIndexCount := 2,
               pQueueFamilyIndices := [0, 1] } ∧
    createSwapChainSharing ⟨some 0, some 0⟩
      = some { imageSharingMode := .exclusive, queueFamilyIndexCount := 0,
               pQueueFamilyIndices := [] } :=
  ⟨(createSwapChainSharing_spec 0 1).1 (by decide),
   (createSwapChainSharing_spec 0 0).2.1 rfl⟩

/-! ## Teardown and swapchain recreation traces (hellovk.h 423-429, 644-687)

The Vulkan calls issued by `cleanupSwapChain`, `cleanup`, `recreateSwapChain`
and `createSwapChain` are recorded as an event trace on an explicit state
record, which also carries the handles and vectors those functions touch. -/

/-- One Vulkan call recorded by the teardown/recreation paths. -/
inductive VkEvent where
  | deviceWaitIdle
  | destroyFramebuffer
  | destroyImageView
  | destroySwapchain
  | destroyDescriptorPool
  | destroyDescriptorSetLayout
  | destroyBuffer
  | freeMemory
  | destroySemaphore
  | destroyFence
  | destroyCommandPool
  | destroyPipeline
  | destroyPipelineLayout
  | destroyRenderPass
  | destroyDevice
  | destroySurface
  | destroyInstance
  | createSwapchain
  deriving DecidableEq, Repr

/-- The HelloVK members read or written by the teardown/recreation paths:
the `initialized` flag, the opaque handles, the per-image vectors (element
values are opaque handles), and the trace of Vulkan calls issued so far. -/
structure VkState where
  initialized : Bool
  instanceHandle : Nat
  deviceHandle : Nat
  surfaceHandle : Nat
  physicalDeviceHandle : Nat
  imageAvailableSemaphores : List Nat
  renderFinishedSemaphores : List Nat
  inFlightFences : List Nat
  swapChainFramebuffers : List Nat
  swapChainImageViews : List Nat
  trace : List VkEvent
  deriving DecidableEq, Repr

/-- The calls issued by HelloVK::cleanupSwapChain (hellovk.h 644-654): one
vkDestroyFramebuffer per element of `swapChainFramebuffers`, one
vkDestroyImageView per element of `swapChainImageViews`, then
vkDestroySwapchainKHR. The vectors are not cleared by the code. -/
def cleanupSwapChainEvents (s : VkState) : List VkEvent :=
  List.replicate s.swapChainFramebuffers.length VkEvent.destroyFramebuffer
    ++ List.replicate s.swapChainImageViews.length VkEvent.destroyImageView
    ++ [VkEvent.destroySwapchain]

/-- HelloVK::cleanupSwapChain as a state step. -/
def cleanupSwapChain (s : VkState) : VkState :=
  { s with trace := s.trace ++ cleanupSwapChainEvents s }

/-- The vkDeviceWaitIdle call as a state step. -/
def deviceWaitIdle (s : VkState) : VkState :=
  { s with trace := s.trace ++ [VkEvent.deviceWaitIdle] }

/-- HelloVK::createSwapChain as a state step: for the recreation claim only
the vkCreateSwapchainKHR call matters; it destroys nothing. -/
def createSwapChain (s : VkState) : VkState :=
  { s with trace := s.trace ++ [VkEvent.createSwapchain] }

/-- HelloVK::recreateSwapChain (hellovk.h 423-429): wait for the device to
go idle, run cleanupSwapChain, then createSwapChain (the image-view and
framebuffer re-creation calls are commented out in the source). -/
def recreateSwapChain (s : VkState) : VkState :=
  createSwapChain (cleanupSwapChain (deviceWaitIdle s))

/-- The calls issued by HelloVK::cleanup (hellovk.h 657-687) after the
initial vkDeviceWaitIdle and cleanupSwapChain: descriptor pool and layout,
the MAX_FRAMES_IN_FLIGHT = 2 uniform buffer/memory pairs, the staging buffer
and memory glyphs, the texture memory, the 2 sync-object triples, command
pool, pipeline, pipeline layout, render pass, device, surface and instance
(validation layers are disabled, so no debug messenger is destroyed). -/
def cleanupTailEvents : List VkEvent :=
  [VkEvent.destroyDescriptorPool, VkEvent.destroyDescriptorSetLayout,
   VkEvent.destroyBuffer, VkEvent.freeMemory,
   VkEvent.destroyBuffer, VkEvent.freeMemory,
   VkEvent.destroyBuffer, VkEvent.freeMemory, VkEvent.freeMemory,
   VkEvent.destroySemaphore, VkEvent.destroySemaphore, VkEvent.destroyFence,
   VkEvent.destroySemaphore, VkEvent.destroySemaphore, VkEvent.destroyFence,
   VkEvent.destroyCommandPool, VkEvent.destroyPipeline,
   VkEvent.destroyPipelineLayout, VkEvent.destroyRenderPass,
   VkEvent.destroyDevice, VkEvent.destroySurface, VkEvent.destroyInstance]

/-- Every call issued by one run of HelloVK::cleanup. -/
def cleanupEvents (s : VkState) : List VkEvent :=
  VkEvent.deviceWaitIdle :: (cleanupSwapChainEvents s ++ cleanupTailEvents)

/-- HelloVK::cleanup (hellovk.h 657-687): unconditionally issues every
destroy call and finally sets `initialized` to false. There is no guard on
`initialized` at the top of the function. -/
def cleanup (s : VkState) : VkState :=
  { s with trace := s.trace ++ cleanupEvents s, initialized := false }

/-- A concrete already-initialized state used as the counterexample input. -/
def vkState0 : VkState :=
  { initialized := true, instanceHandle := 1, deviceHandle := 2,
    surfaceHandle := 3, physicalDeviceHandle := 4,
    imageAvailableSemaphores := [10, 11], renderFinishedSemaphores := [12, 13],
    inFlightFences := [14, 15], swapChainFramebuffers := [],
    swapChainImageViews := [], trace := [] }

/-- C3 counterexample: starting from the concrete initialized state, a second
consecutive cleanup call is not a no-op: it changes the state again, and the
device is destroyed twice (a double free), refuting idempotence of the
cleanup path as claimed. -/
theorem cleanup_idempotent_counterexample :
    cleanup (cleanup vkState0) ≠ cleanup vkState0 ∧
    (cleanup vkState0).trace.count VkEvent.destroyDevice = 1 ∧
    (cleanup (cleanup vkState0)).trace.count VkEvent.destroyDevice = 2 := by
  decide

/-- C3 (amended): cleanup does set `initialized` to false, but the cleanup
body itself is not guarded by the `initialized` flag: a second consecutive
call re-issues the full destroy sequence, so every resource — the device for
instance — is destroyed once more per extra call. -/
theorem cleanup_unguarded_spec :
    ∀ s : VkState,
      (cleanup s).initialized = false ∧
      (cleanup (cleanup s)).trace = (cleanup s).trace ++ cleanupEvents s ∧
      (cleanup (cleanup s)).trace.count VkEvent.destroyDevice
        = (cleanup s).trace.count VkEvent.destroyDevice + 1 := by
  intro s
  have hsame : cleanupEvents (cleanup s) = cleanupEvents s := rfl
  refine ⟨rfl, ?_, ?_⟩
  · show (cleanup s).trace ++ cleanupEvents (cleanup s) = (cleanup s).trace ++ cleanupEvents s
    rw [hsame]
  · show ((cleanup s).trace ++ cleanupEvents (cleanup s)).count VkEvent.destroyDevice
        = (cleanup s).trace.count VkEvent.destroyDevice + 1
    rw [hsame, List.count_append]
    congr 1
    simp [cleanupEvents, cleanupSwapChainEvents, cleanupTailEvents,
      List.count_append, List.count_replicate, List.count_cons]

/-- Helper: a replicated list satisfies `all p` when its element does. -/
theorem all_replicate_of (n : Nat) {α : Type} (a : α) (p : α → Bool) (h : p a = true) :
    (List.replicate n a).all p = true := by
  induction n with
  | zero => rfl
  | succ n ih => simp [List.replicate_succ, ih, h]

/-- C7: recreateSwapChain first waits for the device to go idle, then emits
exactly the per-image destroys (framebuffers, image views) and the swapchain
destroy, then re-creates the swapchain; every emitted destroy is one of
those three kinds, no instance/device/surface/semaphore/fence destroy is
emitted, and the instance, device, surface, physical-device handle and the
three sync-object vectors (and the `initialized` flag) are left unchanged. -/
theorem recreateSwapChain_spec :
    ∀ s : VkState,
      (recreateSwapChain s).instanceHandle = s.instanceHandle ∧
      (recreateSwapChain s).deviceHandle = s.deviceHandle ∧
      (recreateSwapChain s).surfaceHandle = s.surfaceHandle ∧
      (recreateSwapChain s).physicalDeviceHandle = s.physicalDeviceHandle ∧
      (recreateSwapChain s).imageAvailableSemaphores = s.imageAvailableSemaphores ∧
      (recreateSwapChain s).renderFinishedSemaphores = s.renderFinishedSemaphores ∧
      (recreateSwapChain s).inFlightFences = s.inFlightFences ∧
      (recreateSwapChain s).initialized = s.initialized ∧
      (recreateSwapChain s).trace
        = s.trace ++ [VkEvent.deviceWaitIdle] ++ cleanupSwapChainEvents s
            ++ [VkEvent.createSwapchain] ∧
      (cleanupSwapChainEvents s).all
        (fun e => e == VkEvent.destroyFramebuffer || e == VkEvent.destroyImageView
          || e == VkEvent.destroySwapchain) = true ∧
      ([VkEvent.deviceWaitIdle] ++ cleanupSwapChainEvents s
          ++ [VkEvent.createSwapchain]).all
        (fun e => !(e == VkEvent.destroyInstance || e == VkEvent.destroyDevice
          || e == VkEvent.destroySurface || e == VkEvent.destroySemaphore
          || e == VkEvent.destroyFence)) = true := by
  intro s
  have hall1 : (cleanupSwapChainEvents s).all
      (fun e => e == VkEvent.destroyFramebuffer || e == VkEvent.destroyImageView
        || e == VkEvent.destroySwapchain) = true := by
    simp only [cleanupSwapChainEvents, List.all_append]
    refine by simp [all_replicate_of]
  have hall2 : ([VkEvent.deviceWaitIdle] ++ cleanupSwapChainEvents s
        ++ [VkEvent.createSwapchain]).all
      (fun e => !(e == VkEvent.destroyInstance || e == VkEvent.destroyDevice
        || e == VkEvent.destroySurface || e == VkEvent.destroySemaphore
        || e == VkEvent.destroyFence)) = true := by
    simp only [cleanupSwapChainEvents, List.all_append]
    refine by simp [all_replicate_of]
  refine ⟨rfl, rfl, rfl, rfl, rfl, rfl, rfl, rfl, ?_, hall1, hall2⟩
  show ((s.trace ++ [VkEvent.deviceWaitIdle]) ++ cleanupSwapChainEvents (deviceWaitIdle s))
        ++ [VkEvent.createSwapchain]
      = s.trace ++ [VkEvent.deviceWaitIdle] ++ cleanupSwapChainEvents s
        ++ [VkEvent.createSwapchain]
  rfl

/-! ## Error handling on the setup path (hellovk.h 45-52 and initVulkan) -/

/-- The result-returning Vulkan calls that appear on the initVulkan setup
path (hellovk.h 293-318 and the functions it calls). -/
inductive ApiCall where
  | createInstance
  | enumerateInstanceExtensionProperties
  | createAndroidSurface
  | enumeratePhysicalDevices
  | getPhysicalDeviceSurfaceSupport
  | enumerateDeviceExtensionProperties
  | getPhysicalDeviceSurfaceCapabilities
  | getPhysicalDeviceSurfaceFormats
  | getPhysicalDeviceSurfacePresentModes
  | createDevice
  | createSwapchain
  | getSwapchainImages
  | createSemaphore
  | createFence
  deriving DecidableEq, Repr

/-- One call site of the setup path: which call it is and whether the source
wraps it in VK_CHECK (hellovk.h 45-52). -/
structure CallSite where
  call : ApiCall
  checked : Bool
  deriving DecidableEq, Repr

/-- The device/swapchain/sync-object creation calls named by the claim. -/
def isCreationCall (c : ApiCall) : Bool :=
  c == ApiCall.createDevice || c == ApiCall.createSwapchain ||
  c == ApiCall.createSemaphore || c == ApiCall.createFence

/-- The straight-line sequence of result-returning Vulkan calls issued by
HelloVK::initVulkan on a nominal run (validation layers disabled, one
physical device exposing one queue family, found suitable), in program
order, each tagged with whether the source wraps it in VK_CHECK:
createInstance (hellovk.h 734-779), createSurface (788-799),
pickPhysicalDevice with isDeviceSuitable (804-911),
createLogicalDeviceAndQueue (914-952), establishDisplaySizeIdentity
(975-990), createSwapChain (992-1063) and createSyncObjects (1065-1085). -/
def setupCalls : List CallSite :=
  [ ⟨ApiCall.createInstance, true⟩,
    ⟨ApiCall.enumerateInstanceExtensionProperties, false⟩,
    ⟨ApiCall.enumerateInstanceExtensionProperties, false⟩,
    ⟨ApiCall.createAndroidSurface, true⟩,
    ⟨ApiCall.enumeratePhysicalDevices, false⟩,
    ⟨ApiCall.enumeratePhysicalDevices, false⟩,
    ⟨ApiCall.getPhysicalDeviceSurfaceSupport, false⟩,
    ⟨ApiCall.enumerateDeviceExtensionProperties, false⟩,
    ⟨ApiCall.enumerateDeviceExtensionProperties, false⟩,
    ⟨ApiCall.getPhysicalDeviceSurfaceCapabilities, false⟩,
    ⟨ApiCall.getPhysicalDeviceSurfaceFormats, false⟩,
    ⟨ApiCall.getPhysicalDeviceSurfaceFormats, false⟩,
    ⟨ApiCall.getPhysicalDeviceSurfacePresentModes, false⟩,
    ⟨ApiCall.getPhysicalDeviceSurfacePresentModes, false⟩,
    ⟨ApiCall.getPhysicalDeviceSurfaceSupport, false⟩,
    ⟨ApiCall.createDevice, true⟩,
    ⟨ApiCall.getPhysicalDeviceSurfaceCapabilities, false⟩,
    ⟨ApiCall.getPhysicalDeviceSurfaceCapabilities, false⟩,
    ⟨ApiCall.getPhysicalDeviceSurfaceFormats, false⟩,
    ⟨ApiCall.getPhysicalDeviceSurfaceFormats, false⟩,
    ⟨ApiCall.getPhysicalDeviceSurfacePresentModes, false⟩,
    ⟨ApiCall.getPhysicalDeviceSurfacePresentModes, false⟩,
    ⟨ApiCall.getPhysicalDeviceSurfaceSupport, false⟩,
    ⟨ApiCall.createSwapchain, true⟩,
    ⟨ApiCall.getSwapchainImages, false⟩,
    ⟨ApiCall.getSwapchainImages, false⟩,
    ⟨ApiCall.createSemaphore, true⟩,
    ⟨ApiCall.createSemaphore, true⟩,
    ⟨ApiCall.createFence, true⟩,
    ⟨ApiCall.createSemaphore, true⟩,
    ⟨ApiCall.createSemaphore, true⟩,
    ⟨ApiCall.createFence, true⟩ ]

/-- Outcome of running the setup path. Swapchain recreation is not reachable
from the setup path in the source (recreateSwapChain is only called from the
render/orientation handling), so it cannot appear as an outcome here. -/
inductive SetupOutcome where
  | completed
  | aborted (code : Int)
  deriving DecidableEq, Repr

/-- Runs the setup call sequence against the VkResult each call returns
(0 is VK_SUCCESS): a VK_CHECK-wrapped call with a non-zero result logs the
code and aborts the process (hellovk.h 45-52); every other result is
discarded by the source and execution continues. -/
def runSetupGo : List (CallSite × Int) → SetupOutcome
  | [] => SetupOutcome.completed
  | (c, r) :: rest =>
    if c.checked = true ∧ r ≠ 0 then SetupOutcome.aborted r else runSetupGo rest

/-- Runs the setup path with the given per-call VkResult list. -/
def runSetup (results : List Int) : SetupOutcome :=
  runSetupGo (setupCalls.zip results)

/-- Per-call results that fail only the first vkGetSwapchainImagesKHR call
(index 24 of `setupCalls`) with VK_ERROR_OUT_OF_HOST_MEMORY = -1. -/
def results0 : List Int :=
  List.replicate 24 0 ++ [-1] ++ List.replicate 7 0

/-- C8 counterexample: a setup run in which vkGetSwapchainImagesKHR — an API
call on the setup path — reports failure code -1, yet setup completes
normally: the failure neither aborts the process nor triggers swapchain
recreation, so it is silently ignored, refuting the claim's universal
"no API-call failure on the setup path is silently ignored". -/
theorem runSetup_ignores_query_failure_counterexample :
    runSetup results0 = SetupOutcome.completed ∧
    ((⟨ApiCall.getSwapchainImages, false⟩, (-1 : Int)) : CallSite × Int)
      ∈ setupCalls.zip results0 := by
  decide

/-- C8 (amended): every device/swapchain/sync-object creation call on the
setup path is VK_CHECK-wrapped; whenever a VK_CHECK-wrapped call is the
first to report a non-zero result the process aborts immediately with that
code; and setup completes exactly when every VK_CHECK-wrapped call succeeds
— but the unchecked query calls have their results discarded, so only
checked-call failures are fatal. -/
theorem runSetup_spec :
    (setupCalls.all (fun c => !isCreationCall c.call || c.checked) = true) ∧
    (∀ (pre post : List (CallSite × Int)) (c : CallSite) (r : Int),
       (∀ p ∈ pre, p.1.checked = true → p.2 = 0) → c.checked = true → r ≠ 0 →
       runSetupGo (pre ++ (c, r) :: post) = SetupOutcome.aborted r) ∧
    (∀ pairs : List (CallSite × Int),
       runSetupGo pairs = SetupOutcome.completed ↔
         ∀ p ∈ pairs, p.1.checked = true → p.2 = 0) := by
  refine ⟨by decide, ?_, ?_⟩
  · intro pre post c r hpre hc hr
    induction pre with
    | nil => simp [runSetupGo, hc, hr]
    | cons p ps ih =>
      have hp : p.1.checked = true → p.2 = 0 := hpre p (by simp)
      have hps : ∀ q ∈ ps, q.1.checked = true → q.2 = 0 :=
        fun q hq => hpre q (by simp [hq])
      rcases p with ⟨site, res⟩
      by_cases hchk : site.checked = true
      · have : res = 0 := hp hchk
        subst this
        simpa [runSetupGo] using ih hps
      · simpa [runSetupGo, hchk] using ih hps
  · intro pairs
    induction pairs with
    | nil => simp [runSetupGo]
    | cons p ps ih =>
      rcases p with ⟨site, res⟩
      by_cases hfail : site.checked = true ∧ res ≠ 0
      · simp only [runSetupGo, if_pos hfail]
        constructor
        · intro h; cases h
        · intro h
          exact absurd (h (site, res) (by simp) hfail.1) hfail.2
      · simp only [runSetupGo, if_neg hfail]
        rw [ih]
        constructor
        · intro h q hq
          rcases List.mem_cons.mp hq with hq | hq
          · subst hq
            intro hchk
            by_contra hres
            exact hfail ⟨hchk, hres⟩
          · exact h q hq
        · intro h q hq
          exact h q (by simp [hq])

/-- Witness for C8: the amended theorem applied to a one-call sequence whose
checked call fails with code -3: the run aborts with -3; and the empty run
completes. -/
theorem runSetup_spec_witness :
    runSetupGo [(⟨ApiCall.createDevice, true⟩, (-3 : Int))] = SetupOutcome.aborted (-3) ∧
    runSetupGo [] = SetupOutcome.completed :=
  ⟨runSetup_spec.2.1 [] [] ⟨ApiCall.createDevice, true⟩ (-3)
      (by intro p hp; cases hp) rfl (by decide),
   (runSetup_spec.2.2 []).mpr (by intro p hp; cases hp)⟩

/-! ## The HandleCmd fallthrough (vk_main.cpp 65-98) -/

/-- The lifecycle commands handled by HandleCmd's switch. -/
inductive AppCmd where
  | start
  | initWindow
  | termWindow
  | destroy
  | other
  deriving DecidableEq, Repr

/-- The backend calls HandleCmd makes on the engine. -/
inductive AppEvent where
  | reset
  | initVulkan
  | cleanupCall
  deriving DecidableEq, Repr

/-- The engine state HandleCmd reads and writes: whether `app->window` is
non-null, the backend's `initialized` flag (set to true by initVulkan,
hellovk.h 317), and `engine->canRender`. -/
structure EngineState where
  windowPresent : Bool
  initialized : Bool
  canRender : Bool
  deriving DecidableEq, Repr

/-- The APP_CMD_START case body (vk_main.cpp 69-74): when the window is
non-null, reset the backend, call initVulkan unconditionally, and set
canRender. -/
def startCaseBody (s : EngineState) : EngineState × List AppEvent :=
  if s.windowPresent then
    ({ s with initialized := true, canRender := true },
     [AppEvent.reset, AppEvent.initVulkan])
  else (s, [])

/-- The APP_CMD_INIT_WINDOW case body (vk_main.cpp 75-87): when the window
is non-null, reset the backend, call initVulkan only when the backend is not
yet initialized, and set canRender. -/
def initWindowCaseBody (s : EngineState) : EngineState × List AppEvent :=
  if s.windowPresent then
    if s.initialized then ({ s with canRender := true }, [AppEvent.reset])
    else ({ s with initialized := true, canRender := true },
          [AppEvent.reset, AppEvent.initVulkan])
  else (s, [])

/-- HandleCmd (vk_main.cpp 65-98): the APP_CMD_START case has no break, so
it falls through into the APP_CMD_INIT_WINDOW case; the two bodies run in
sequence within the single invocation. -/
def handleCmd (s : EngineState) : AppCmd → EngineState × List AppEvent
  | AppCmd.start =>
    let r1 := startCaseBody s
    let r2 := initWindowCaseBody r1.1
    (r2.1, r1.2 ++ r2.2)
  | AppCmd.initWindow => initWindowCaseBody s
  | AppCmd.termWindow => ({ s with canRender := false }, [])
  | AppCmd.destroy => ({ s with initialized := false }, [AppEvent.cleanupCall])
  | AppCmd.other => (s, [])

/-- C9: with a non-null window, handling APP_CMD_START runs both the start
body and the window-init body in one invocation (the missing break): reset
is called by both bodies, the start body calls initVulkan unconditionally,
and the window-init body's second initVulkan is guarded by `initialized` —
reached only when that flag is false, hence skipped here because the first
body just set it; the invocation therefore emits reset, initVulkan, reset. -/
theorem handleCmd_start_fallthrough :
    (∀ s : EngineState, s.windowPresent = true →
      handleCmd s AppCmd.start
        = (let r1 := startCaseBody s
           let r2 := initWindowCaseBody r1.1
           (r2.1, r1.2 ++ r2.2)) ∧
      (startCaseBody s).2 = [AppEvent.reset, AppEvent.initVulkan] ∧
      (initWindowCaseBody (startCaseBody s).1).2 = [AppEvent.reset] ∧
      (handleCmd s AppCmd.start).2
        = [AppEvent.reset, AppEvent.initVulkan, AppEvent.reset] ∧
      (handleCmd s AppCmd.start).1.initialized = true ∧
      (handleCmd s AppCmd.start).1.canRender = true) ∧
    (∀ s : EngineState, s.windowPresent = true →
      ((initWindowCaseBody s).2 = [AppEvent.reset, AppEvent.initVulkan] ↔
        s.initialized = false)) := by
  constructor
  · intro s h
    refine ⟨rfl, ?_, ?_, ?_, ?_, ?_⟩ <;>
      simp [handleCmd, startCaseBody, initWindowCaseBody, h]
  · intro s h
    by_cases hinit : s.initialized <;>
      simp [initWindowCaseBody, h, hinit]

/-- Witness for C9: the theorem applied at the fresh state with a window
present and at an uninitialized state for the guard direction. -/
theorem handleCmd_start_fallthrough_witness :
    (handleCmd ⟨true, false, false⟩ AppCmd.start).2
      = [AppEvent.reset, AppEvent.initVulkan, AppEvent.reset] ∧
    ((initWindowCaseBody ⟨true, false, false⟩).2
      = [AppEvent.reset, AppEvent.initVulkan] ↔ (false : Bool) = false) :=
  ⟨(handleCmd_start_fallthrough.1 ⟨true, false, false⟩ rfl).2.2.2.1,
   handleCmd_start_fallthrough.2 ⟨true, false, false⟩ rfl⟩

end HelloVK
